import Mathlib

/-!
Shallow embedding of `src/homework.py`, a fitness-tracker module: a base
training class `Training`, three concrete workout variants (`Running`,
`SportsWalking`, `Swimming`) overriding the calorie (and, for swimming,
the speed) formula, and an input-validating factory `read_package`.
Python numbers are modelled as exact rationals; Python exceptions are
modelled with `Except`.
-/

/-- A Python runtime value, as far as `read_package` can observe it:
integers, floats, booleans (in Python, `bool` is a subclass of `int`),
and non-numeric values such as strings. -/
inductive PyVal where
  | int (n : ℤ)
  | float (q : ℚ)
  | bool (b : Bool)
  | str (s : String)
deriving DecidableEq, Repr

/-- The check `isinstance(x, (float, int))` from `read_package`: Python
booleans are instances of `int`, so they count as numeric; strings do not. -/
def PyVal.isNumber : PyVal → Bool
  | .int _ => true
  | .float _ => true
  | .bool _ => true
  | .str _ => false

/-- Numeric value of a `PyVal` (Python coerces `True` / `False` to `1` / `0`
in arithmetic).  Non-numeric values never reach arithmetic in the validated
factory; they are mapped to `0`. -/
def PyVal.toRat : PyVal → ℚ
  | .int n => (n : ℚ)
  | .float q => q
  | .bool b => if b then 1 else 0
  | .str _ => 0

/-- The Python exceptions this module can raise: `ValueError` (raised by
`read_package` for all three validation failures), `NotImplementedError`
(raised by the base `Training.get_spent_calories`), and
`ZeroDivisionError` (raised by an unguarded division). -/
inductive PyError where
  | valueError (msg : String)
  | notImplementedError (msg : String)
  | zeroDivisionError
deriving DecidableEq, Repr

/-- An instance of the `Training` class hierarchy: the three concrete
variants, plus `Base name action duration weight` for an instance of
`Training` itself or of any subclass that does not override
`get_spent_calories` (`name` is Python's `type(self).__name__`, used in
the `NotImplementedError` message). -/
inductive Training where
  | Running (action duration weight : ℚ)
  | SportsWalking (action duration weight height : ℚ)
  | Swimming (action duration weight length_pool count_pool : ℚ)
  | Base (name : String) (action duration weight : ℚ)
deriving DecidableEq, Repr

namespace Training

/-- Class constant `Training.M_IN_KM = 1000.0`. -/
def M_IN_KM : ℚ := 1000.0

/-- Class constant `Training.MINUTES_IN_HOUR = 60.0`. -/
def MINUTES_IN_HOUR : ℚ := 60.0

/-- Class constant `LEN_STEP`: `0.65` on `Training`, overridden to `1.38`
by `Swimming`. -/
def LEN_STEP : Training → ℚ
  | .Swimming _ _ _ _ _ => 1.38
  | _ => 0.65

/-- Field `self.action`, set by `Training.__init__`. -/
def action : Training → ℚ
  | .Running a _ _ => a
  | .SportsWalking a _ _ _ => a
  | .Swimming a _ _ _ _ => a
  | .Base _ a _ _ => a

/-- Field `self.duration`, set by `Training.__init__`. -/
def duration : Training → ℚ
  | .Running _ d _ => d
  | .SportsWalking _ d _ _ => d
  | .Swimming _ d _ _ _ => d
  | .Base _ _ d _ => d

/-- Field `self.weight`, set by `Training.__init__`. -/
def weight : Training → ℚ
  | .Running _ _ w => w
  | .SportsWalking _ _ w _ => w
  | .Swimming _ _ w _ _ => w
  | .Base _ _ _ w => w

/-- Class constant `Running.CALORIES_MEAN_SPEED_MULTIPLIER = 18.0`. -/
def Running.CALORIES_MEAN_SPEED_MULTIPLIER : ℚ := 18.0

/-- Class constant `Running.CALORIES_MEAN_SPEED_SHIFT = 1.79`. -/
def Running.CALORIES_MEAN_SPEED_SHIFT : ℚ := 1.79

/-- Class constant `SportsWalking.CALORIES_MEAN_SPEED_MULTIPLIER = 0.035`. -/
def SportsWalking.CALORIES_MEAN_SPEED_MULTIPLIER : ℚ := 0.035

/-- Class constant `SportsWalking.CALORIES_MEAN_SPEED_SHIFT = 0.029`. -/
def SportsWalking.CALORIES_MEAN_SPEED_SHIFT : ℚ := 0.029

/-- Class constant `SportsWalking.KMH_IN_MSEC = 0.278`. -/
def SportsWalking.KMH_IN_MSEC : ℚ := 0.278

/-- Class constant `SportsWalking.HEIGHT_DIV = 100.0`. -/
def SportsWalking.HEIGHT_DIV : ℚ := 100.0

/-- Class constant `SportsWalking.MEAN_SPEED_POW_VALUE = 2.0`; the Python
source uses it as an exponent (`** 2.0`), which on these inputs is exact
squaring, so it is modelled as the natural exponent `2`. -/
def SportsWalking.MEAN_SPEED_POW_VALUE : ℕ := 2

/-- Class constant `Swimming.CALORIES_MEAN_SPEED_MULTIPLIER = 1.1`. -/
def Swimming.CALORIES_MEAN_SPEED_MULTIPLIER : ℚ := 1.1

/-- Class constant `Swimming.CALORIES_MEAN_SPEED_SHIFT = 2.0`. -/
def Swimming.CALORIES_MEAN_SPEED_SHIFT : ℚ := 2.0

/-- Method `Training.get_distance`: `self.action * self.LEN_STEP /
self.M_IN_KM` (the divisor is the constant `1000.0`, so this never
raises; `LEN_STEP` dispatches on the dynamic type). -/
def get_distance (t : Training) : ℚ :=
  t.action * t.LEN_STEP / M_IN_KM

/-- Method `get_mean_speed`: the base implementation
`self.get_distance() / self.duration`, overridden by `Swimming` to
`self.length_pool * self.count_pool / self.M_IN_KM / self.duration`.
Python raises `ZeroDivisionError` when `duration` is zero. -/
def get_mean_speed : Training → Except PyError ℚ
  | .Swimming _ d _ lp cp =>
      if d = 0 then .error .zeroDivisionError
      else .ok (lp * cp / M_IN_KM / d)
  | t =>
      if t.duration = 0 then .error .zeroDivisionError
      else .ok (t.get_distance / t.duration)

/-- Method `get_spent_calories`: on the base class it raises
`NotImplementedError('Определите калории в %s.' % type(self).__name__)`;
each concrete variant overrides it with its own formula.  The walking
formula divides by `height_in_meters`, which raises `ZeroDivisionError`
when the height is zero (evaluated after `get_mean_speed`, matching the
Python statement order). -/
def get_spent_calories : Training → Except PyError ℚ
  | .Base name _ _ _ =>
      .error (.notImplementedError ("Определите калории в " ++ name ++ "."))
  | .Running a d w =>
      (get_mean_speed (.Running a d w)).map fun v =>
        (Running.CALORIES_MEAN_SPEED_MULTIPLIER * v
            + Running.CALORIES_MEAN_SPEED_SHIFT)
          * w / M_IN_KM * d * MINUTES_IN_HOUR
  | .SportsWalking a d w h =>
      (get_mean_speed (.SportsWalking a d w h)).bind fun v =>
        let mean_speed_ms := v * SportsWalking.KMH_IN_MSEC
        let height_in_meters := h / SportsWalking.HEIGHT_DIV
        if height_in_meters = 0 then .error .zeroDivisionError
        else .ok ((SportsWalking.CALORIES_MEAN_SPEED_MULTIPLIER * w
            + mean_speed_ms ^ SportsWalking.MEAN_SPEED_POW_VALUE
                / height_in_meters
              * SportsWalking.CALORIES_MEAN_SPEED_SHIFT * w)
          * d * MINUTES_IN_HOUR)
  | .Swimming a d w lp cp =>
      (get_mean_speed (.Swimming a d w lp cp)).map fun v =>
        (v + Swimming.CALORIES_MEAN_SPEED_MULTIPLIER)
          * Swimming.CALORIES_MEAN_SPEED_SHIFT * w * d

end Training

/-- The dictionary `data_len` from `read_package`, mapping a workout-type
code to its required arity; a missing key means the dict lookup raises
`KeyError`. -/
def data_len (workout_type : String) : Option ℕ :=
  if workout_type = "SWM" then some 5
  else if workout_type = "RUN" then some 3
  else if workout_type = "WLK" then some 4
  else none

/-- The factory `read_package(workout_type, data)`.  An unknown code makes
`data_len[workout_type]` raise `KeyError`, which the `except KeyError`
handler translates to `ValueError('Неизвестная тренировка')`; a wrong
length or a non-numeric element raises a `ValueError` directly (those
propagate through the `except KeyError` handler); otherwise the variant
class looked up in `training_type` is constructed with `data` bound
positionally.  The final catch-all arm is unreachable: every known code's
arity check has already pinned the shape of `data`. -/
def read_package (workout_type : String) (data : List PyVal) :
    Except PyError Training :=
  match data_len workout_type with
  | none => .error (.valueError "Неизвестная тренировка")
  | some n =>
    if data.length ≠ n then
      .error (.valueError ("Неправильное количество"
        ++ "элементов для " ++ workout_type))
    else if ¬ data.all PyVal.isNumber then
      .error (.valueError ("В массиве присутствуют значения,"
        ++ " отличные от целых чисел"))
    else
      match workout_type, data with
      | "SWM", [a, d, w, lp, cp] =>
          .ok (.Swimming a.toRat d.toRat w.toRat lp.toRat cp.toRat)
      | "RUN", [a, d, w] =>
          .ok (.Running a.toRat d.toRat w.toRat)
      | "WLK", [a, d, w, h] =>
          .ok (.SportsWalking a.toRat d.toRat w.toRat h.toRat)
      | _, _ => .error (.valueError "Неизвестная тренировка")

/-! Helper lemmas about `read_package`, shared by the claim theorems below:
one lemma per region of the factory's case analysis (unknown code, wrong
arity, non-numeric element, successful construction), plus the fact that
every error it produces is a `ValueError`. -/

lemma length_eq_three {α : Type} {xs : List α} (h : xs.length = 3) :
    ∃ a b c, xs = [a, b, c] := by
  rcases xs with _ | ⟨a, _ | ⟨b, _ | ⟨c, _ | ⟨d, tl⟩⟩⟩⟩ <;> simp_all

lemma length_eq_four {α : Type} {xs : List α} (h : xs.length = 4) :
    ∃ a b c d, xs = [a, b, c, d] := by
  rcases xs with _ | ⟨a, _ | ⟨b, _ | ⟨c, _ | ⟨d, _ | ⟨e, tl⟩⟩⟩⟩⟩ <;> simp_all

lemma length_eq_five {α : Type} {xs : List α} (h : xs.length = 5) :
    ∃ a b c d e, xs = [a, b, c, d, e] := by
  rcases xs with _ | ⟨a, _ | ⟨b, _ | ⟨c, _ | ⟨d, _ | ⟨e, _ | ⟨f, tl⟩⟩⟩⟩⟩⟩ <;>
    simp_all

lemma read_package_unknown {wt : String} (data : List PyVal)
    (h1 : wt ≠ "SWM") (h2 : wt ≠ "RUN") (h3 : wt ≠ "WLK") :
    read_package wt data
      = .error (.valueError "Неизвестная тренировка") := by
  simp +decide [read_package, data_len, h1, h2, h3]

lemma read_package_RUN_badlen {data : List PyVal} (h : data.length ≠ 3) :
    read_package "RUN" data
      = .error (.valueError ("Неправильное количество"
          ++ "элементов для " ++ "RUN")) := by
  simp +decide [read_package, data_len, h]

lemma read_package_WLK_badlen {data : List PyVal} (h : data.length ≠ 4) :
    read_package "WLK" data
      = .error (.valueError ("Неправильное количество"
          ++ "элементов для " ++ "WLK")) := by
  simp +decide [read_package, data_len, h]

lemma read_package_SWM_badlen {data : List PyVal} (h : data.length ≠ 5) :
    read_package "SWM" data
      = .error (.valueError ("Неправильное количество"
          ++ "элементов для " ++ "SWM")) := by
  simp +decide [read_package, data_len, h]

lemma read_package_RUN_badnum {data : List PyVal} (hlen : data.length = 3)
    (h : ¬ data.all PyVal.isNumber = true) :
    read_package "RUN" data
      = .error (.valueError ("В массиве присутствуют значения,"
          ++ " отличные от целых чисел")) := by
  simp +decide [read_package, data_len, hlen, h]

lemma read_package_WLK_badnum {data : List PyVal} (hlen : data.length = 4)
    (h : ¬ data.all PyVal.isNumber = true) :
    read_package "WLK" data
      = .error (.valueError ("В массиве присутствуют значения,"
          ++ " отличные от целых чисел")) := by
  simp +decide [read_package, data_len, hlen, h]

lemma read_package_SWM_badnum {data : List PyVal} (hlen : data.length = 5)
    (h : ¬ data.all PyVal.isNumber = true) :
    read_package "SWM" data
      = .error (.valueError ("В массиве присутствуют значения,"
          ++ " отличные от целых чисел")) := by
  simp +decide [read_package, data_len, hlen, h]

lemma read_package_RUN_ok (a d w : PyVal) (ha : a.isNumber = true)
    (hd : d.isNumber = true) (hw : w.isNumber = true) :
    read_package "RUN" [a, d, w]
      = .ok (.Running a.toRat d.toRat w.toRat) := by
  simp +decide [read_package, data_len, ha, hd, hw]

lemma read_package_WLK_ok (a d w h : PyVal) (ha : a.isNumber = true)
    (hd : d.isNumber = true) (hw : w.isNumber = true)
    (hh : h.isNumber = true) :
    read_package "WLK" [a, d, w, h]
      = .ok (.SportsWalking a.toRat d.toRat w.toRat h.toRat) := by
  simp +decide [read_package, data_len, ha, hd, hw, hh]

lemma read_package_SWM_ok (a d w lp cp : PyVal) (ha : a.isNumber = true)
    (hd : d.isNumber = true) (hw : w.isNumber = true)
    (hlp : lp.isNumber = true) (hcp : cp.isNumber = true) :
    read_package "SWM" [a, d, w, lp, cp]
      = .ok (.Swimming a.toRat d.toRat w.toRat lp.toRat cp.toRat) := by
  simp +decide [read_package, data_len, ha, hd, hw, hlp, hcp]

lemma read_package_error_is_valueError {wt : String} {data : List PyVal}
    {e : PyError} (h : read_package wt data = .error e) :
    ∃ msg, e = .valueError msg := by
  unfold read_package at h
  repeat' split at h
  all_goals simp_all
  all_goals exact ⟨_, h.symm⟩

/-- C1: `read_package` raises an error if and only if the workout-type
code is not one of "SWM" / "RUN" / "WLK", or the length of `data` differs
from that code's required arity (3 for running, 4 for walking, 5 for
swimming), or some element of `data` is not numeric; and every error it
raises is in the one `ValueError` category, so for an unknown code the
failure occurs regardless of the contents of `data`. -/
theorem C1_read_package_single_error_category (wt : String)
    (data : List PyVal) :
    ((∃ e, read_package wt data = Except.error e) ↔
      ((wt ≠ "SWM" ∧ wt ≠ "RUN" ∧ wt ≠ "WLK")
        ∨ (wt = "RUN" ∧ data.length ≠ 3)
        ∨ (wt = "WLK" ∧ data.length ≠ 4)
        ∨ (wt = "SWM" ∧ data.length ≠ 5)
        ∨ (∃ x ∈ data, x.isNumber = false)))
    ∧ (∀ e, read_package wt data = Except.error e →
        ∃ msg, e = PyError.valueError msg) := by
  refine ⟨⟨?_, ?_⟩, fun e he => read_package_error_is_valueError he⟩
  · rintro ⟨e, he⟩
    by_cases hS : wt = "SWM"
    · subst hS
      by_cases hlen : data.length = 5
      · by_cases hall : data.all PyVal.isNumber = true
        · exfalso
          obtain ⟨a, b, c, d, f, rfl⟩ := length_eq_five hlen
          simp [List.all_cons] at hall
          obtain ⟨h1, h2, h3, h4, h5⟩ := hall
          rw [read_package_SWM_ok a b c d f h1 h2 h3 h4 h5] at he
          cases he
        · refine Or.inr (Or.inr (Or.inr (Or.inr ?_)))
          simpa [List.all_eq_true, Bool.not_eq_true] using hall
      · exact Or.inr (Or.inr (Or.inr (Or.inl ⟨rfl, hlen⟩)))
    · by_cases hR : wt = "RUN"
      · subst hR
        by_cases hlen : data.length = 3
        · by_cases hall : data.all PyVal.isNumber = true
          · exfalso
            obtain ⟨a, b, c, rfl⟩ := length_eq_three hlen
            simp [List.all_cons] at hall
            obtain ⟨h1, h2, h3⟩ := hall
            rw [read_package_RUN_ok a b c h1 h2 h3] at he
            cases he
          · refine Or.inr (Or.inr (Or.inr (Or.inr ?_)))
            simpa [List.all_eq_true, Bool.not_eq_true] using hall
        · exact Or.inr (Or.inl ⟨rfl, hlen⟩)
      · by_cases hW : wt = "WLK"
        · subst hW
          by_cases hlen : data.length = 4
          · by_cases hall : data.all PyVal.isNumber = true
            · exfalso
              obtain ⟨a, b, c, d, rfl⟩ := length_eq_four hlen
              simp [List.all_cons] at hall
              obtain ⟨h1, h2, h3, h4⟩ := hall
              rw [read_package_WLK_ok a b c d h1 h2 h3 h4] at he
              cases he
            · refine Or.inr (Or.inr (Or.inr (Or.inr ?_)))
              simpa [List.all_eq_true, Bool.not_eq_true] using hall
          · exact Or.inr (Or.inr (Or.inl ⟨rfl, hlen⟩))
        · exact Or.inl ⟨hS, hR, hW⟩
  · intro h
    rcases h with ⟨h1, h2, h3⟩ | ⟨hR, hlen⟩ | ⟨hW, hlen⟩ | ⟨hS, hlen⟩ |
      ⟨x, hx, hnum⟩
    · exact ⟨_, read_package_unknown data h1 h2 h3⟩
    · exact hR ▸ ⟨_, read_package_RUN_badlen hlen⟩
    · exact hW ▸ ⟨_, read_package_WLK_badlen hlen⟩
    · exact hS ▸ ⟨_, read_package_SWM_badlen hlen⟩
    · have hnall : ¬ data.all PyVal.isNumber = true := by
        simp only [List.all_eq_true]
        push_neg
        exact ⟨x, hx, by simp [hnum]⟩
      by_cases hS : wt = "SWM"
      · subst hS
        by_cases hlen : data.length = 5
        · exact ⟨_, read_package_SWM_badnum hlen hnall⟩
        · exact ⟨_, read_package_SWM_badlen hlen⟩
      · by_cases hR : wt = "RUN"
        · subst hR
          by_cases hlen : data.length = 3
          · exact ⟨_, read_package_RUN_badnum hlen hnall⟩
          · exact ⟨_, read_package_RUN_badlen hlen⟩
        · by_cases hW : wt = "WLK"
          · subst hW
            by_cases hlen : data.length = 4
            · exact ⟨_, read_package_WLK_badnum hlen hnall⟩
            · exact ⟨_, read_package_WLK_badlen hlen⟩
          · exact ⟨_, read_package_unknown data hS hR hW⟩

/-- Witness for C1, at the unknown code from the repository's demo data:
the factory fails with a `ValueError` even though the data are numeric. -/
theorem C1_read_package_single_error_category_witness :
    ∃ msg, read_package "ВWQ" [.int 1, .int 2, .int 3]
      = Except.error (PyError.valueError msg) := by
  obtain ⟨hiff, herr⟩ :=
    C1_read_package_single_error_category "ВWQ" [.int 1, .int 2, .int 3]
  obtain ⟨e, he⟩ := hiff.mpr (Or.inl ⟨by decide, by decide, by decide⟩)
  obtain ⟨msg, rfl⟩ := herr e he
  exact ⟨msg, he⟩

/-- C2 (counterexample): for `Running` with action 15000, duration 1,
weight 75, `get_spent_calories` returns exactly 797.805, which is not
within 1e-2 of the claimed 691.71. -/
theorem C2_running_scenario_counterexample :
    Training.get_spent_calories (.Running 15000 1 75)
      = Except.ok 797.805 ∧
    ¬ |(797.805 : ℚ) - 691.71| ≤ 1 / 100 := by
  constructor
  · norm_num [Training.get_spent_calories, Training.get_mean_speed,
      Training.get_distance, Training.action, Training.duration,
      Training.LEN_STEP, Training.M_IN_KM, Training.MINUTES_IN_HOUR,
      Training.Running.CALORIES_MEAN_SPEED_MULTIPLIER,
      Training.Running.CALORIES_MEAN_SPEED_SHIFT, Except.map]
  · norm_num [abs_le]

/-- C2 (amended): for `Running` with action 15000, duration 1, weight 75,
`get_distance` returns 9.75 km, `get_mean_speed` returns 9.75 km/h, and
`get_spent_calories` returns 797.805, within 1e-2 of 797.81. -/
theorem C2_running_scenario_amended :
    Training.get_distance (.Running 15000 1 75) = 9.75 ∧
    Training.get_mean_speed (.Running 15000 1 75) = Except.ok 9.75 ∧
    Training.get_spent_calories (.Running 15000 1 75)
      = Except.ok 797.805 ∧
    |(797.805 : ℚ) - 797.81| ≤ 1 / 100 := by
  refine ⟨?_, ?_, ?_, by norm_num [abs_le]⟩
  · norm_num [Training.get_distance, Training.action, Training.LEN_STEP,
      Training.M_IN_KM]
  · norm_num [Training.get_mean_speed, Training.get_distance,
      Training.action, Training.duration, Training.LEN_STEP, Training.M_IN_KM]
  · norm_num [Training.get_spent_calories, Training.get_mean_speed,
      Training.get_distance, Training.action, Training.duration,
      Training.LEN_STEP, Training.M_IN_KM, Training.MINUTES_IN_HOUR,
      Training.Running.CALORIES_MEAN_SPEED_MULTIPLIER,
      Training.Running.CALORIES_MEAN_SPEED_SHIFT, Except.map]

/-- C3 (counterexample): for `SportsWalking` with action 9000, duration 1,
weight 75, height 180, `get_spent_calories` returns exactly
349.251747525, which is not within 1e-2 of the claimed 157.23. -/
theorem C3_walking_scenario_counterexample :
    Training.get_spent_calories (.SportsWalking 9000 1 75 180)
      = Except.ok 349.251747525 ∧
    ¬ |(349.251747525 : ℚ) - 157.23| ≤ 1 / 100 := by
  constructor
  · norm_num [Training.get_spent_calories, Training.get_mean_speed,
      Training.get_distance, Training.action, Training.duration,
      Training.LEN_STEP, Training.M_IN_KM, Training.MINUTES_IN_HOUR,
      Training.SportsWalking.CALORIES_MEAN_SPEED_MULTIPLIER,
      Training.SportsWalking.CALORIES_MEAN_SPEED_SHIFT,
      Training.SportsWalking.KMH_IN_MSEC, Training.SportsWalking.HEIGHT_DIV,
      Training.SportsWalking.MEAN_SPEED_POW_VALUE, Except.bind]
  · norm_num [abs_le]

/-- C3 (amended): for `SportsWalking` with action 9000, duration 1,
weight 75, height 180, `get_distance` returns 5.85 km, `get_mean_speed`
returns 5.85 km/h, and `get_spent_calories` returns 349.251747525,
within 1e-2 of 349.25. -/
theorem C3_walking_scenario_amended :
    Training.get_distance (.SportsWalking 9000 1 75 180) = 5.85 ∧
    Training.get_mean_speed (.SportsWalking 9000 1 75 180)
      = Except.ok 5.85 ∧
    Training.get_spent_calories (.SportsWalking 9000 1 75 180)
      = Except.ok 349.251747525 ∧
    |(349.251747525 : ℚ) - 349.25| ≤ 1 / 100 := by
  refine ⟨?_, ?_, ?_, by norm_num [abs_le]⟩
  · norm_num [Training.get_distance, Training.action, Training.LEN_STEP,
      Training.M_IN_KM]
  · norm_num [Training.get_mean_speed, Training.get_distance,
      Training.action, Training.duration, Training.LEN_STEP, Training.M_IN_KM]
  · norm_num [Training.get_spent_calories, Training.get_mean_speed,
      Training.get_distance, Training.action, Training.duration,
      Training.LEN_STEP, Training.M_IN_KM, Training.MINUTES_IN_HOUR,
      Training.SportsWalking.CALORIES_MEAN_SPEED_MULTIPLIER,
      Training.SportsWalking.CALORIES_MEAN_SPEED_SHIFT,
      Training.SportsWalking.KMH_IN_MSEC, Training.SportsWalking.HEIGHT_DIV,
      Training.SportsWalking.MEAN_SPEED_POW_VALUE, Except.bind]

/-- C4 (counterexample): for `Swimming` with action 720, duration 1,
weight 80, pool length 25, lap count 40, `get_distance` returns exactly
0.9936 km (the base formula with the overridden step 1.38), which is not
within 1e-2 of the claimed 0.468. -/
theorem C4_swimming_scenario_counterexample :
    Training.get_distance (.Swimming 720 1 80 25 40) = 0.9936 ∧
    ¬ |(0.9936 : ℚ) - 0.468| ≤ 1 / 100 := by
  constructor
  · norm_num [Training.get_distance, Training.action, Training.LEN_STEP,
      Training.M_IN_KM]
  · norm_num [abs_le]

/-- C4 (amended): for `Swimming` with action 720, duration 1, weight 80,
pool length 25, lap count 40, `get_mean_speed` returns 1.0 km/h,
`get_distance` returns 0.9936 km (within 1e-2 of 0.99), and
`get_spent_calories` returns exactly 336.0. -/
theorem C4_swimming_scenario_amended :
    Training.get_mean_speed (.Swimming 720 1 80 25 40) = Except.ok 1 ∧
    Training.get_distance (.Swimming 720 1 80 25 40) = 0.9936 ∧
    |(0.9936 : ℚ) - 0.99| ≤ 1 / 100 ∧
    Training.get_spent_calories (.Swimming 720 1 80 25 40)
      = Except.ok 336 := by
  refine ⟨?_, ?_, by norm_num [abs_le], ?_⟩
  · norm_num [Training.get_mean_speed, Training.M_IN_KM]
  · norm_num [Training.get_distance, Training.action, Training.LEN_STEP,
      Training.M_IN_KM]
  · norm_num [Training.get_spent_calories, Training.get_mean_speed,
      Training.M_IN_KM, Training.Swimming.CALORIES_MEAN_SPEED_MULTIPLIER,
      Training.Swimming.CALORIES_MEAN_SPEED_SHIFT, Except.map]

/-- C5: for every `Running` instance with nonzero duration,
`get_spent_calories` equals
`(18.0 * mean_speed + 1.79) * weight / 1000.0 * duration * 60.0`, where
the mean speed is the default one, distance divided by duration. -/
theorem C5_running_calories_formula (a d w : ℚ) (h : d ≠ 0) :
    Training.get_mean_speed (.Running a d w)
      = Except.ok (Training.get_distance (.Running a d w) / d) ∧
    Training.get_spent_calories (.Running a d w)
      = Except.ok ((18.0 * (Training.get_distance (.Running a d w) / d)
          + 1.79) * w / 1000.0 * d * 60.0) := by
  constructor
  · simp [Training.get_mean_speed, Training.duration, h]
  · simp [Training.get_spent_calories, Training.get_mean_speed,
      Training.duration, h, Except.map,
      Training.Running.CALORIES_MEAN_SPEED_MULTIPLIER,
      Training.Running.CALORIES_MEAN_SPEED_SHIFT,
      Training.M_IN_KM, Training.MINUTES_IN_HOUR]

/-- Witness for C5 at action 15000, duration 1, weight 75. -/
theorem C5_running_calories_formula_witness :
    Training.get_mean_speed (.Running 15000 1 75)
      = Except.ok (Training.get_distance (.Running 15000 1 75) / 1) ∧
    Training.get_spent_calories (.Running 15000 1 75)
      = Except.ok ((18.0 * (Training.get_distance (.Running 15000 1 75) / 1)
          + 1.79) * 75 / 1000.0 * 1 * 60.0) :=
  C5_running_calories_formula 15000 1 75 (by norm_num)

/-- C6: for every valid code with data of the code's arity and all
elements numeric, `read_package` returns the mapped variant without
error, binding the data positionally in the order action, duration,
weight, then height for walking, or pool length and lap count for
swimming. -/
theorem C6_read_package_positional_construction :
    (∀ a d w : PyVal, a.isNumber = true → d.isNumber = true →
        w.isNumber = true →
      read_package "RUN" [a, d, w]
        = Except.ok (.Running a.toRat d.toRat w.toRat)) ∧
    (∀ a d w h : PyVal, a.isNumber = true → d.isNumber = true →
        w.isNumber = true → h.isNumber = true →
      read_package "WLK" [a, d, w, h]
        = Except.ok (.SportsWalking a.toRat d.toRat w.toRat h.toRat)) ∧
    (∀ a d w lp cp : PyVal, a.isNumber = true → d.isNumber = true →
        w.isNumber = true → lp.isNumber = true → cp.isNumber = true →
      read_package "SWM" [a, d, w, lp, cp]
        = Except.ok (.Swimming a.toRat d.toRat w.toRat lp.toRat cp.toRat)) :=
  ⟨read_package_RUN_ok, read_package_WLK_ok, read_package_SWM_ok⟩

/-- Witness for C6 at the three sample packages of the repository. -/
theorem C6_read_package_positional_construction_witness :
    read_package "RUN" [.int 15000, .float 1, .int 75]
      = Except.ok (.Running 15000 1 75) ∧
    read_package "WLK" [.int 9000, .int 1, .int 75, .int 180]
      = Except.ok (.SportsWalking 9000 1 75 180) ∧
    read_package "SWM" [.int 720, .int 1, .int 80, .int 25, .int 40]
      = Except.ok (.Swimming 720 1 80 25 40) := by
  refine ⟨?_, ?_, ?_⟩
  · have h := C6_read_package_positional_construction.1
      (.int 15000) (.float 1) (.int 75) rfl rfl rfl
    norm_num [PyVal.toRat] at h
    exact h
  · have h := C6_read_package_positional_construction.2.1
      (.int 9000) (.int 1) (.int 75) (.int 180) rfl rfl rfl rfl
    norm_num [PyVal.toRat] at h
    exact h
  · have h := C6_read_package_positional_construction.2.2
      (.int 720) (.int 1) (.int 80) (.int 25) (.int 40) rfl rfl rfl rfl rfl
    norm_num [PyVal.toRat] at h
    exact h

/-- C7: calling the base `get_spent_calories` on an instance that does
not override it yields a `NotImplementedError` whose message names the
instance's type, and that error is a different kind from the
`ValueError` category: it is never equal to a `ValueError`, and
`read_package` never raises it. -/
theorem C7_base_calories_unimplemented (name : String) (a d w : ℚ) :
    Training.get_spent_calories (.Base name a d w)
      = Except.error (.notImplementedError
          ("Определите калории в " ++ name ++ ".")) ∧
    (∀ msg, PyError.notImplementedError ("Определите калории в " ++ name ++ ".")
        ≠ PyError.valueError msg) ∧
    (∀ wt data, read_package wt data
        ≠ Except.error (.notImplementedError
            ("Определите калории в " ++ name ++ "."))) := by
  refine ⟨by simp [Training.get_spent_calories], ?_, ?_⟩
  · intro msg h
    cases h
  · intro wt data h
    obtain ⟨msg, hmsg⟩ := read_package_error_is_valueError h
    cases hmsg

/-- Witness for C7 at a hypothetical fourth variant named CrossFit. -/
theorem C7_base_calories_unimplemented_witness :
    Training.get_spent_calories (.Base "CrossFit" 3000 1 70)
      = Except.error (.notImplementedError
          "Определите калории в CrossFit.") := by
  have h := (C7_base_calories_unimplemented "CrossFit" 3000 1 70).1
  rw [(by decide : ("Определите калории в " ++ "CrossFit" ++ "." : String)
    = "Определите калории в CrossFit.")] at h
  exact h

/-- C8: the numeric check of `read_package` accepts Python booleans
(`bool` is a subclass of `int`): lists of the correct arity containing
`True` / `False` pass validation, and the booleans are bound as the
numbers 1 / 0. -/
theorem C8_read_package_accepts_bools :
    (∀ b : Bool, PyVal.isNumber (.bool b) = true) ∧
    (∀ (b : Bool) (d w : PyVal), d.isNumber = true → w.isNumber = true →
      read_package "RUN" [.bool b, d, w]
        = Except.ok (.Running (if b then 1 else 0) d.toRat w.toRat)) ∧
    (∀ (b : Bool) (a d w : PyVal), a.isNumber = true → d.isNumber = true →
        w.isNumber = true →
      read_package "WLK" [a, d, w, .bool b]
        = Except.ok (.SportsWalking a.toRat d.toRat w.toRat
            (if b then 1 else 0))) ∧
    (∀ (b c : Bool) (a d w : PyVal), a.isNumber = true → d.isNumber = true →
        w.isNumber = true →
      read_package "SWM" [a, d, w, .bool b, .bool c]
        = Except.ok (.Swimming a.toRat d.toRat w.toRat (if b then 1 else 0)
            (if c then 1 else 0))) := by
  refine ⟨fun b => rfl, ?_, ?_, ?_⟩
  · intro b d w hd hw
    have h := read_package_RUN_ok (.bool b) d w rfl hd hw
    simpa [PyVal.toRat] using h
  · intro b a d w ha hd hw
    have h := read_package_WLK_ok a d w (.bool b) ha hd hw rfl
    simpa [PyVal.toRat] using h
  · intro b c a d w ha hd hw
    have h := read_package_SWM_ok a d w (.bool b) (.bool c) ha hd hw rfl rfl
    simpa [PyVal.toRat] using h

/-- Witness for C8: `True` as a running action and `False` as a walking
height both pass validation and are bound as 1 and 0. -/
theorem C8_read_package_accepts_bools_witness :
    read_package "RUN" [.bool true, .int 1, .int 75]
      = Except.ok (.Running 1 1 75) ∧
    read_package "WLK" [.int 9000, .int 1, .int 75, .bool false]
      = Except.ok (.SportsWalking 9000 1 75 0) := by
  constructor
  · have h := C8_read_package_accepts_bools.2.1 true (.int 1) (.int 75)
      rfl rfl
    norm_num [PyVal.toRat] at h
    exact h
  · have h := C8_read_package_accepts_bools.2.2.1 false (.int 9000) (.int 1)
      (.int 75) rfl rfl rfl
    norm_num [PyVal.toRat] at h
    exact h

/-- C9: `read_package` performs no range validation: with a numeric zero
duration, construction succeeds for every valid code, and the returned
variant's `get_mean_speed` and `get_spent_calories` then hit an
unguarded division by zero. -/
theorem C9_no_range_validation_division_by_zero (z : PyVal)
    (hz : z.isNumber = true) (hz0 : z.toRat = 0) :
    (∀ a w : PyVal, a.isNumber = true → w.isNumber = true →
      read_package "RUN" [a, z, w]
        = Except.ok (.Running a.toRat 0 w.toRat) ∧
      Training.get_mean_speed (.Running a.toRat 0 w.toRat)
        = Except.error .zeroDivisionError ∧
      Training.get_spent_calories (.Running a.toRat 0 w.toRat)
        = Except.error .zeroDivisionError) ∧
    (∀ a w h : PyVal, a.isNumber = true → w.isNumber = true →
        h.isNumber = true →
      read_package "WLK" [a, z, w, h]
        = Except.ok (.SportsWalking a.toRat 0 w.toRat h.toRat) ∧
      Training.get_mean_speed (.SportsWalking a.toRat 0 w.toRat h.toRat)
        = Except.error .zeroDivisionError ∧
      Training.get_spent_calories (.SportsWalking a.toRat 0 w.toRat h.toRat)
        = Except.error .zeroDivisionError) ∧
    (∀ a w lp cp : PyVal, a.isNumber = true → w.isNumber = true →
        lp.isNumber = true → cp.isNumber = true →
      read_package "SWM" [a, z, w, lp, cp]
        = Except.ok (.Swimming a.toRat 0 w.toRat lp.toRat cp.toRat) ∧
      Training.get_mean_speed (.Swimming a.toRat 0 w.toRat lp.toRat cp.toRat)
        = Except.error .zeroDivisionError ∧
      Training.get_spent_calories
          (.Swimming a.toRat 0 w.toRat lp.toRat cp.toRat)
        = Except.error .zeroDivisionError) := by
  refine ⟨?_, ?_, ?_⟩
  · intro a w ha hw
    refine ⟨?_, ?_, ?_⟩
    · rw [read_package_RUN_ok a z w ha hz hw, hz0]
    · simp [Training.get_mean_speed, Training.duration]
    · simp [Training.get_spent_calories, Training.get_mean_speed,
        Training.duration, Except.map]
  · intro a w h ha hw hh
    refine ⟨?_, ?_, ?_⟩
    · rw [read_package_WLK_ok a z w h ha hz hw hh, hz0]
    · simp [Training.get_mean_speed, Training.duration]
    · simp [Training.get_spent_calories, Training.get_mean_speed,
        Training.duration, Except.bind]
  · intro a w lp cp ha hw hlp hcp
    refine ⟨?_, ?_, ?_⟩
    · rw [read_package_SWM_ok a z w lp cp ha hz hw hlp hcp, hz0]
    · simp [Training.get_mean_speed]
    · simp [Training.get_spent_calories, Training.get_mean_speed, Except.map]

/-- Witness for C9 with duration 0 in a running package. -/
theorem C9_no_range_validation_division_by_zero_witness :
    read_package "RUN" [.int 15000, .int 0, .int 75]
      = Except.ok (.Running 15000 0 75) ∧
    Training.get_mean_speed (.Running 15000 0 75)
      = Except.error .zeroDivisionError ∧
    Training.get_spent_calories (.Running 15000 0 75)
      = Except.error .zeroDivisionError := by
  have h := (C9_no_range_validation_division_by_zero (.int 0) rfl
    (by norm_num [PyVal.toRat])).1 (.int 15000) (.int 75) rfl rfl
  norm_num [PyVal.toRat] at h
  exact h

/-- C10: for `Running` and `SportsWalking` with nonzero duration,
mean speed times duration equals distance; for `Swimming` the overridden
speed depends only on pool length and lap count while distance is
`action * 1.38 / 1000`, and the identity fails, for example, at the
repository's sample swimming package. -/
theorem C10_speed_distance_relation :
    (∀ a d w : ℚ, d ≠ 0 → ∃ v, Training.get_mean_speed (.Running a d w)
        = Except.ok v ∧ v * d = Training.get_distance (.Running a d w)) ∧
    (∀ a d w h : ℚ, d ≠ 0 → ∃ v,
      Training.get_mean_speed (.SportsWalking a d w h)
        = Except.ok v ∧
      v * d = Training.get_distance (.SportsWalking a d w h)) ∧
    (∀ a a2 d w lp cp : ℚ, Training.get_mean_speed (.Swimming a d w lp cp)
        = Training.get_mean_speed (.Swimming a2 d w lp cp)) ∧
    (∀ a d w lp cp : ℚ, Training.get_distance (.Swimming a d w lp cp)
        = a * 1.38 / 1000.0) ∧
    (∃ a d w lp cp : ℚ, d ≠ 0 ∧ ∃ v,
      Training.get_mean_speed (.Swimming a d w lp cp) = Except.ok v ∧
      v * d ≠ Training.get_distance (.Swimming a d w lp cp)) := by
  refine ⟨fun a d w h => ⟨_, by simp [Training.get_mean_speed,
      Training.duration, h], div_mul_cancel₀ _ h⟩,
    fun a d w ht h => ⟨_, by simp [Training.get_mean_speed,
      Training.duration, h], div_mul_cancel₀ _ h⟩,
    fun a a2 d w lp cp => rfl,
    fun a d w lp cp => by
      simp [Training.get_distance, Training.action, Training.LEN_STEP,
        Training.M_IN_KM],
    720, 1, 80, 25, 40, by norm_num, 1, ?_, ?_⟩
  · norm_num [Training.get_mean_speed, Training.M_IN_KM]
  · norm_num [Training.get_distance, Training.action, Training.LEN_STEP,
      Training.M_IN_KM]

/-- Witness for C10 at the running and walking sample packages. -/
theorem C10_speed_distance_relation_witness :
    (∃ v, Training.get_mean_speed (.Running 15000 1 75) = Except.ok v ∧
      v * 1 = Training.get_distance (.Running 15000 1 75)) ∧
    (∃ v, Training.get_mean_speed (.SportsWalking 9000 1 75 180)
        = Except.ok v ∧
      v * 1 = Training.get_distance (.SportsWalking 9000 1 75 180)) :=
  ⟨C10_speed_distance_relation.1 15000 1 75 (by norm_num),
    C10_speed_distance_relation.2.1 9000 1 75 180 (by norm_num)⟩
